import Mathlib

/-!
Shallow embedding of the PAT-scheme analytical core (pat_scheme/calculator.py,
pat_scheme/models.py, pat_scheme/data.py).  Python floats are modelled as
exact rationals; Python's `round(x, n)` (round-half-to-even at `n` decimal
places) is modelled by `roundTo`; code that can raise `ZeroDivisionError`
is modelled as `Option`-valued, returning `none` exactly where the Python
division would raise.
-/

/-- Constant `CO2_FACTOR = 0.07` from pat_scheme/data.py. -/
def CO2_FACTOR : ℚ := 7/100

/-- Constant `MMBTU_TO_TOE = 41.868` from pat_scheme/data.py. -/
def MMBTU_TO_TOE : ℚ := 41868/1000

/-- Round-half-to-even to an integer, the rounding Python's builtin `round`
uses. -/
def roundHalfEven (q : ℚ) : ℤ :=
  if q - (⌊q⌋ : ℚ) < 1/2 then ⌊q⌋
  else if (1:ℚ)/2 < q - (⌊q⌋ : ℚ) then ⌊q⌋ + 1
  else if ⌊q⌋ % 2 = 0 then ⌊q⌋ else ⌊q⌋ + 1

/-- Python's `round(q, n)`: round-half-to-even at `n` decimal places. -/
def roundTo (n : ℕ) (q : ℚ) : ℚ := (roundHalfEven (q * 10^n) : ℚ) / 10^n

/-- `SECResult` dataclass from pat_scheme/calculator.py. -/
structure SECResult where
  current_sec : ℚ
  baseline_sec : ℚ
  target_sec : ℚ
  reduction_pct : ℚ
  is_compliant : Bool
  energy_savings_mmbtu : ℚ
  co2_avoided_tonnes : ℚ
deriving DecidableEq

/-- `calculate_sec` from pat_scheme/calculator.py.  The two divisions
(`total_energy_mmbtu / crude_throughput_mt` and the division by
`baseline_sec` inside `reduction_pct`) raise `ZeroDivisionError` in Python
when the divisor is zero; those are the `none` branches. -/
def calculate_sec (total_energy_mmbtu crude_throughput_mt baseline_sec
    target_reduction_pct capacity_utilization : ℚ) : Option SECResult :=
  if crude_throughput_mt = 0 then none
  else if baseline_sec = 0 then none
  else
    let current_sec := total_energy_mmbtu / crude_throughput_mt
    let target_sec := baseline_sec * (1 - target_reduction_pct / 100)
    let reduction_pct := ((baseline_sec - current_sec) / baseline_sec) * 100
    let energy_savings := (baseline_sec - current_sec) * crude_throughput_mt
    let co2_avoided := energy_savings * CO2_FACTOR
    some {
      current_sec := roundTo 3 current_sec
      baseline_sec := baseline_sec
      target_sec := roundTo 3 target_sec
      reduction_pct := roundTo 2 reduction_pct
      is_compliant := decide (current_sec < target_sec)
      energy_savings_mmbtu := roundTo 0 energy_savings
      co2_avoided_tonnes := roundTo 0 co2_avoided }

/-- `ESCertResult` dataclass from pat_scheme/calculator.py. -/
structure ESCertResult where
  is_generator : Bool
  escerts_toe : ℚ
  value_inr : ℚ
  value_usd : ℚ
  breakeven_sec : Option ℚ
deriving DecidableEq

/-- `calculate_escerts` from pat_scheme/calculator.py.  The only division by
a non-constant is `value_inr / usd_inr_rate`, which raises
`ZeroDivisionError` exactly when `usd_inr_rate = 0`. -/
def calculate_escerts (current_sec target_sec capacity_mmtpa escert_price_inr
    usd_inr_rate utilization : ℚ) : Option ESCertResult :=
  if usd_inr_rate = 0 then none
  else
    let overachievement := target_sec - current_sec
    let annual_throughput := capacity_mmtpa * 1000000 * utilization
    let escerts_toe := overachievement * annual_throughput / MMBTU_TO_TOE
    let value_inr := escerts_toe * escert_price_inr
    let value_usd := value_inr / usd_inr_rate
    some {
      is_generator := decide (overachievement > 0)
      escerts_toe := roundTo 0 escerts_toe
      value_inr := roundTo 0 value_inr
      value_usd := roundTo 0 value_usd
      breakeven_sec := if overachievement < 0 then some target_sec else none }

/-- `DiffInDiffCoefficients` dataclass from pat_scheme/models.py. -/
structure DiffInDiffCoefficients where
  avg_treatment_effect : ℚ
  std_error : ℚ
  early_entrant_effect : ℚ
  late_entrant_effect : ℚ
  large_refinery_adj : ℚ
  r_squared : ℚ
  n_observations : ℕ
deriving DecidableEq

/-- The global `MODEL` instance from pat_scheme/models.py with its default
coefficient values. -/
def MODEL : DiffInDiffCoefficients :=
  { avg_treatment_effect := -(241/1000)
    std_error := 171/1000
    early_entrant_effect := -(518/1000)
    late_entrant_effect := -(22/1000)
    large_refinery_adj := 85/1000
    r_squared := 843/1000
    n_observations := 117 }

/-- `predict_sec_reduction` from pat_scheme/models.py. -/
def predict_sec_reduction (pat_cycle_entry : ℤ) (capacity_mmtpa : ℚ)
    (model : DiffInDiffCoefficients) : ℚ :=
  (if pat_cycle_entry ≤ 2 then |model.early_entrant_effect| * 100
   else |model.late_entrant_effect| * 100) +
  (if capacity_mmtpa > 10 then -model.large_refinery_adj * 100 else 0)

/-- `np.percentile(xs, q)` with the default linear interpolation used by
numpy: for the sorted sample `a` of length `n`, interpolate at rank
`q * (n - 1) / 100`. -/
def percentile (xs : List ℚ) (q : ℚ) : ℚ :=
  let sorted := xs.mergeSort (fun a b => decide (a ≤ b))
  let n := sorted.length
  let h := q * ((n : ℚ) - 1) / 100
  let i := (⌊h⌋).toNat
  let lo := sorted.getD i 0
  let hi := sorted.getD (min (i + 1) (n - 1)) 0
  lo + (h - (⌊h⌋ : ℚ)) * (hi - lo)

/-- The tuple returned by `monte_carlo_compliance` in pat_scheme/models.py:
compliance probability, the two CI bounds, and the simulated SEC sample. -/
structure MCResult where
  prob : ℚ
  ci_lower : ℚ
  ci_upper : ℚ
  sims : List ℚ
deriving DecidableEq

/-- `monte_carlo_compliance` from pat_scheme/models.py.  numpy's global
random generator is made explicit: `σ` is the generator's state type,
`seedState` models `np.random.seed`, and `drawNormal` models
`np.random.normal(mean, std, n)` (returning the drawn samples and the
updated generator state).  When `seed` is `some k` the incoming state is
replaced by `seedState k`, exactly as `np.random.seed(seed)` does; when it
is `none` the incoming state is used as-is. -/
def monte_carlo_compliance {σ : Type} (seedState : ℕ → σ)
    (drawNormal : σ → ℚ → ℚ → ℕ → List ℚ × σ) (state : σ)
    (baseline_sec target_sec predicted_reduction_pct : ℚ)
    (n_simulations : ℕ) (std_error_pct : ℚ) (seed : Option ℕ) :
    MCResult × σ :=
  let s0 := match seed with
    | some k => seedState k
    | none => state
  let drawn := drawNormal s0 predicted_reduction_pct std_error_pct n_simulations
  let simulated_secs := drawn.1.map (fun e => baseline_sec * (1 - e / 100))
  let compliance_prob :=
    ((simulated_secs.filter (fun x => decide (x < target_sec))).length : ℚ) /
      (simulated_secs.length : ℚ) * 100
  let ci_lower := percentile simulated_secs (5/2)
  let ci_upper := percentile simulated_secs (195/2)
  ({ prob := compliance_prob, ci_lower := ci_lower, ci_upper := ci_upper
     sims := simulated_secs }, drawn.2)

/-- One row of the refinery dataframe (pat_scheme/data.py), restricted to
the columns the calculator and model functions read. -/
structure RefineryRow where
  refinery : String
  capacity_mmtpa : ℚ
  pat_cycle_entry : ℤ
  baseline_sec : ℚ
  current_sec : ℚ
  target_sec : ℚ
deriving DecidableEq

/-- One entry of the `refinery_positions` list built by
`calculate_portfolio_escerts`. -/
structure RefineryPosition where
  refinery : String
  escerts_toe : ℚ
  value_inr_cr : ℚ
deriving DecidableEq

/-- The dict returned by `calculate_portfolio_escerts`. -/
structure PortfolioSummary where
  total_generated_toe : ℚ
  total_required_toe : ℚ
  net_balance_toe : ℚ
  market_value_inr_cr : ℚ
  is_surplus : Bool
  positions : List RefineryPosition
deriving DecidableEq

/-- The `for` loop of `calculate_portfolio_escerts`: thread the
`total_generated` / `total_required` accumulators and the
`refinery_positions` list over the rows.  An exception raised by
`calculate_escerts` would abort the whole loop, hence the `none`
propagation. -/
def portfolioAux (price : ℚ) :
    List RefineryRow → ℚ → ℚ → List RefineryPosition →
    Option (ℚ × ℚ × List RefineryPosition)
  | [], total_generated, total_required, positions =>
      some (total_generated, total_required, positions)
  | row :: rest, total_generated, total_required, positions =>
    match calculate_escerts row.current_sec row.target_sec row.capacity_mmtpa
        price 83 (85/100) with
    | none => none
    | some result =>
      portfolioAux price rest
        (if result.is_generator then total_generated + result.escerts_toe
         else total_generated)
        (if result.is_generator then total_required
         else total_required + |result.escerts_toe|)
        (positions ++ [{ refinery := row.refinery
                         escerts_toe := result.escerts_toe
                         value_inr_cr := result.value_inr / 10^7 }])

/-- `calculate_portfolio_escerts` from pat_scheme/calculator.py.  The inner
`calculate_escerts` calls use the default `usd_inr_rate = 83.0` and
`utilization = 0.85`. -/
def calculate_portfolio_escerts (rows : List RefineryRow)
    (escert_price_inr : ℚ) : Option PortfolioSummary :=
  match portfolioAux escert_price_inr rows 0 0 [] with
  | none => none
  | some (total_generated, total_required, positions) =>
    some { total_generated_toe := total_generated
           total_required_toe := total_required
           net_balance_toe := total_generated - total_required
           market_value_inr_cr :=
             |total_generated - total_required| * escert_price_inr / 10^7
           is_surplus := decide (total_generated - total_required > 0)
           positions := positions }

/-- The per-facility seed expression `hash(row['refinery']) % 2**32` of
`batch_compliance_forecast` in pat_scheme/models.py.  `pyHash` stands for
Python's builtin `hash` on strings, which is salted per interpreter
process, so it is a parameter rather than a fixed function. -/
def batchSeed (pyHash : String → ℤ) (ident : String) : ℕ :=
  ((pyHash ident).emod (2^32)).toNat

/-- One entry of the list returned by `batch_compliance_forecast`. -/
structure ComplianceForecast where
  refinery : String
  baseline_sec : ℚ
  target_sec : ℚ
  predicted_sec : ℚ
  predicted_reduction_pct : ℚ
  compliance_probability : ℚ
  ci_lower : ℚ
  ci_upper : ℚ
  status : String
deriving DecidableEq

/-- `batch_compliance_forecast` from pat_scheme/models.py, with numpy's
global generator state made explicit exactly as in
`monte_carlo_compliance`.  Each row's simulation is seeded with
`batchSeed pyHash row.refinery` and uses `n_simulations = 5000` and the
default `std_error_pct = 17.1`. -/
def batch_compliance_forecast {σ : Type} (seedState : ℕ → σ)
    (drawNormal : σ → ℚ → ℚ → ℕ → List ℚ × σ) (pyHash : String → ℤ) :
    σ → List RefineryRow → List ComplianceForecast × σ
  | s, [] => ([], s)
  | s, row :: rest =>
    let pred_reduction :=
      predict_sec_reduction row.pat_cycle_entry row.capacity_mmtpa MODEL
    let pred_sec := row.baseline_sec * (1 - pred_reduction / 100)
    let mc := monte_carlo_compliance seedState drawNormal s
      row.baseline_sec row.target_sec pred_reduction 5000 (171/10)
      (some (batchSeed pyHash row.refinery))
    let fc : ComplianceForecast :=
      { refinery := row.refinery
        baseline_sec := row.baseline_sec
        target_sec := row.target_sec
        predicted_sec := roundTo 2 pred_sec
        predicted_reduction_pct := roundTo 1 pred_reduction
        compliance_probability := roundTo 1 mc.1.prob
        ci_lower := roundTo 2 mc.1.ci_lower
        ci_upper := roundTo 2 mc.1.ci_upper
        status := if mc.1.prob ≥ 70 then "High"
                  else if mc.1.prob ≥ 40 then "Medium" else "At Risk" }
    let rest' := batch_compliance_forecast seedState drawNormal pyHash mc.2 rest
    (fc :: rest'.1, rest'.2)

/-- A refinery row violating the documented `capacity > 0` precondition,
used to probe the aggregator's partial-failure behaviour. -/
def badRow : RefineryRow :=
  { refinery := "BAD", capacity_mmtpa := -1, pat_cycle_entry := 1
    baseline_sec := 82/10, current_sec := 13/2, target_sec := 15/2 }

/-- A well-formed refinery row (a net certificate buyer). -/
def goodRow : RefineryRow :=
  { refinery := "GOOD", capacity_mmtpa := 10, pat_cycle_entry := 1
    baseline_sec := 82/10, current_sec := 8, target_sec := 15/2 }

/-- Helper: `calculate_escerts` at the default fx rate 83 and utilization
0.85 always succeeds, with the record spelled out. -/
lemma calculate_escerts_83_eq (cur tgt cap price : ℚ) :
    calculate_escerts cur tgt cap price 83 (85/100) =
    some { is_generator := decide (tgt - cur > 0)
           escerts_toe := roundTo 0 ((tgt - cur) * (cap * 1000000 * (85/100)) / MMBTU_TO_TOE)
           value_inr := roundTo 0 ((tgt - cur) * (cap * 1000000 * (85/100)) / MMBTU_TO_TOE * price)
           value_usd := roundTo 0 ((tgt - cur) * (cap * 1000000 * (85/100)) / MMBTU_TO_TOE * price / 83)
           breakeven_sec := if tgt - cur < 0 then some tgt else none } := by
  simp [calculate_escerts]

/-- Helper: the portfolio loop never fails (the inner `calculate_escerts`
calls use fx rate 83 ≠ 0) and its positions list extends the accumulator by
the rows' names in input order. -/
lemma portfolioAux_spec (price : ℚ) :
    ∀ (rows : List RefineryRow) (g r : ℚ) (pos : List RefineryPosition),
      ∃ g2 r2 pos2, portfolioAux price rows g r pos = some (g2, r2, pos2) ∧
        pos2.map (fun p => p.refinery) =
          pos.map (fun p => p.refinery) ++ rows.map (fun row => row.refinery) := by
  intro rows
  induction rows with
  | nil => intro g r pos; exact ⟨g, r, pos, rfl, by simp⟩
  | cons row rest ih =>
    intro g r pos
    simp only [portfolioAux, calculate_escerts_83_eq]
    obtain ⟨g2, r2, pos2, hEq, hMap⟩ := ih _ _
      (pos ++ [{ refinery := row.refinery
                 escerts_toe := roundTo 0 ((row.target_sec - row.current_sec) *
                   (row.capacity_mmtpa * 1000000 * (85/100)) / MMBTU_TO_TOE)
                 value_inr_cr := roundTo 0 ((row.target_sec - row.current_sec) *
                   (row.capacity_mmtpa * 1000000 * (85/100)) / MMBTU_TO_TOE * price) / 10^7 }])
    refine ⟨g2, r2, pos2, hEq, ?_⟩
    rw [hMap]
    simp

/-- Helper: `monte_carlo_compliance` with an explicit seed ignores the
incoming generator state entirely (result and outgoing state alike). -/
lemma monte_carlo_seeded_irrel {σ : Type} (seedState : ℕ → σ)
    (drawNormal : σ → ℚ → ℚ → ℕ → List ℚ × σ) (s1 s2 : σ)
    (b t p : ℚ) (n : ℕ) (e : ℚ) (k : ℕ) :
    monte_carlo_compliance seedState drawNormal s1 b t p n e (some k) =
    monte_carlo_compliance seedState drawNormal s2 b t p n e (some k) := rfl

/-- Claim C1 (counterexample): `calculate_sec` does not return
`totalEnergy/throughput` itself: at `total_energy = 1`,
`throughput = 3` the returned `current_sec` is the 3-decimal rounding
`0.333`, which differs from `1/3`. -/
theorem C1_counterexample :
    (calculate_sec 1 3 (833/100) 5 (85/100)).map (fun r => r.current_sec) =
      some (333/1000) ∧ ((333:ℚ)/1000) ≠ 1/3 := by
  constructor
  · norm_num [calculate_sec, roundTo, roundHalfEven]
  · norm_num

/-- Claim C1 (amended): for every input with positive throughput and
nonzero baseline, `calculate_sec` returns a result whose `current_sec`
equals `totalEnergy/throughput` rounded half-to-even at 3 decimals, and
whose `is_compliant` flag is the strict comparison of the unrounded
quotient against the unrounded target; the concrete scenario
`calculate_sec(85000000, 10000000, 8.33)` yields `current_sec = 8.5` and
`is_compliant = false`. -/
theorem C1_amended :
    (∀ E T B tr u, 0 < T → B ≠ 0 →
      (calculate_sec E T B tr u).map (fun r => (r.current_sec, r.is_compliant)) =
        some (roundTo 3 (E / T), decide (E / T < B * (1 - tr / 100)))) ∧
    (calculate_sec 85000000 10000000 (833/100) 5 (85/100)).map
      (fun r => (r.current_sec, r.is_compliant)) = some (17/2, false) := by
  constructor
  · intro E T B tr u hT hB
    simp [calculate_sec, hT.ne', hB]
  · norm_num [calculate_sec, roundTo, roundHalfEven]

/-- Witness for C1_amended at `total_energy = 2`, `throughput = 1`,
`baseline = 1`. -/
theorem C1_witness :
    (0 < (1:ℚ)) ∧ ((1:ℚ) ≠ 0) ∧
    (calculate_sec 2 1 1 0 1).map (fun r => (r.current_sec, r.is_compliant)) =
      some (roundTo 3 ((2:ℚ) / 1), decide ((2:ℚ) / 1 < 1 * (1 - 0 / 100))) :=
  ⟨by norm_num, by norm_num, C1_amended.1 2 1 1 0 1 (by norm_num) (by norm_num)⟩

/-- Claim C2 (counterexample): `calculate_sec` does not fail on negative
throughput (it returns a result), and it does fail on zero baseline even
with positive throughput — so "fails whenever throughput ≤ 0, no failure
when throughput positive" is false in both directions. -/
theorem C2_counterexample :
    (calculate_sec 85 (-1) (833/100) 5 (85/100)).isSome = true ∧
    (calculate_sec 85 1 0 5 (85/100)).isSome = false := by
  constructor <;> norm_num [calculate_sec]

/-- Claim C2 (amended): `calculate_sec` fails exactly when
`crude_throughput_mt = 0` or `baseline_sec = 0` (Python raises
`ZeroDivisionError` at the corresponding division; no `DomainError` class
exists in the code and no sign check is performed). -/
theorem C2_amended : ∀ E T B tr u,
    calculate_sec E T B tr u = none ↔ T = 0 ∨ B = 0 := by
  intro E T B tr u
  unfold calculate_sec
  by_cases hT : T = 0
  · simp [hT]
  · by_cases hB : B = 0 <;> simp [hT, hB]

/-- Claim C3 (counterexample): `calculate_escerts` does not fail on
non-positive capacity nor on a negative fx rate — both calls return a
result. -/
theorem C3_counterexample :
    (calculate_escerts (13/2) (15/2) (-1) 4000 83 (85/100)).isSome = true ∧
    (calculate_escerts (13/2) (15/2) 10 4000 (-83) (85/100)).isSome = true := by
  constructor <;> norm_num [calculate_escerts]

/-- Claim C3 (amended): `calculate_escerts` fails exactly when
`usd_inr_rate = 0` (Python raises `ZeroDivisionError` at
`value_inr / usd_inr_rate`; no `DomainError` class exists and capacity is
never checked). -/
theorem C3_amended : ∀ cur tgt cap price rate util,
    calculate_escerts cur tgt cap price rate util = none ↔ rate = 0 := by
  intro cur tgt cap price rate util
  unfold calculate_escerts
  by_cases h : rate = 0 <;> simp [h]

/-- Claim C4 (counterexample): at `current_sec = target_sec` the returned
position has `is_generator = false` and yet `breakeven_sec = none`, so
"breakeven_sec is populated iff is_generator is false" fails. -/
theorem C4_counterexample :
    (calculate_escerts (15/2) (15/2) 10 4000 83 (85/100)).map
      (fun r => (r.is_generator, r.breakeven_sec)) = some (false, none) := by
  norm_num [calculate_escerts]

/-- Claim C4 (amended): whenever `calculate_escerts` succeeds,
`is_generator = (targetMetric - currentMetric > 0)` and `breakeven_sec` is
populated (with `targetMetric`) iff the overachievement is strictly
negative — not iff `is_generator` is false; the two differ exactly at
overachievement 0. -/
theorem C4_amended : ∀ cur tgt cap price rate util, rate ≠ 0 →
    (calculate_escerts cur tgt cap price rate util).map
      (fun r => (r.is_generator, r.breakeven_sec)) =
    some (decide (tgt - cur > 0), if tgt - cur < 0 then some tgt else none) := by
  intro cur tgt cap price rate util h
  simp [calculate_escerts, h]

/-- Witness for C4_amended at a generator input (`current = 1 < 2 = target`). -/
theorem C4_witness :
    ((83:ℚ) ≠ 0) ∧
    (calculate_escerts 1 2 0 4000 83 1).map
      (fun r => (r.is_generator, r.breakeven_sec)) =
    some (decide ((2:ℚ) - 1 > 0), if ((2:ℚ) - 1) < 0 then some 2 else none) :=
  ⟨by norm_num, C4_amended 1 2 0 4000 83 1 (by norm_num)⟩

/-- Claim C5 (confirmed): for every facility list and price,
`calculate_portfolio_escerts` succeeds and returns a summary with
`net_balance = total_generated - total_required` exactly,
`market_value = |net_balance| * price / 1e7`,
`is_surplus = (net_balance > 0)`, and one position per input row in input
order. -/
theorem C5_thm : ∀ (rows : List RefineryRow) (price : ℚ),
    ∃ s, calculate_portfolio_escerts rows price = some s ∧
      s.net_balance_toe = s.total_generated_toe - s.total_required_toe ∧
      s.market_value_inr_cr = |s.net_balance_toe| * price / 10^7 ∧
      s.is_surplus = decide (s.net_balance_toe > 0) ∧
      s.positions.map (fun p => p.refinery) = rows.map (fun row => row.refinery) := by
  intro rows price
  obtain ⟨g, r, pos, hEq, hMap⟩ := portfolioAux_spec price rows 0 0 []
  refine ⟨{ total_generated_toe := g, total_required_toe := r
            net_balance_toe := g - r
            market_value_inr_cr := |g - r| * price / 10^7
            is_surplus := decide (g - r > 0), positions := pos },
          ?_, rfl, rfl, rfl, ?_⟩
  · simp [calculate_portfolio_escerts, hEq]
  · simpa using hMap

/-- Claim C6 (confirmed): `predict_sec_reduction` is a two-tier step
function of cohort entry with its only breakpoint at cohort index 2, the
size penalty subtracts `large_refinery_adj * 100` exactly when capacity is
strictly above 10, and with the default coefficients
`predict(1,5) = predict(2,5) ≠ predict(3,5)` and
`predict(1,15) < predict(1,5)`. -/
theorem C6_thm :
    (∀ (m : DiffInDiffCoefficients) (e e' : ℤ) (c : ℚ),
      (e ≤ 2 ↔ e' ≤ 2) →
      predict_sec_reduction e c m = predict_sec_reduction e' c m) ∧
    (∀ (m : DiffInDiffCoefficients) (e : ℤ) (c : ℚ), 10 < c →
      predict_sec_reduction e c m =
        predict_sec_reduction e 5 m - m.large_refinery_adj * 100) ∧
    (∀ (m : DiffInDiffCoefficients) (e : ℤ) (c : ℚ), c ≤ 10 →
      predict_sec_reduction e c m = predict_sec_reduction e 5 m) ∧
    predict_sec_reduction 1 5 MODEL = predict_sec_reduction 2 5 MODEL ∧
    predict_sec_reduction 1 5 MODEL ≠ predict_sec_reduction 3 5 MODEL ∧
    predict_sec_reduction 1 15 MODEL < predict_sec_reduction 1 5 MODEL := by
  refine ⟨?_, ?_, ?_, ?_, ?_, ?_⟩
  · intro m e e' c hiff
    unfold predict_sec_reduction
    by_cases h : e ≤ 2
    · rw [if_pos h, if_pos (hiff.mp h)]
    · rw [if_neg h, if_neg (fun hh => h (hiff.mpr hh))]
  · intro m e c hc
    unfold predict_sec_reduction
    rw [if_pos hc, if_neg (by norm_num : ¬((5:ℚ) > 10))]
    ring
  · intro m e c hc
    unfold predict_sec_reduction
    rw [if_neg (not_lt.mpr hc), if_neg (by norm_num : ¬((5:ℚ) > 10))]
  · norm_num [predict_sec_reduction, MODEL, abs_neg, abs_of_pos]
  · norm_num [predict_sec_reduction, MODEL, abs_neg, abs_of_pos]
  · norm_num [predict_sec_reduction, MODEL, abs_neg, abs_of_pos]

/-- Witness for C6_thm: the size-penalty conjunct at `capacity = 15 > 10`. -/
theorem C6_witness :
    ((10:ℚ) < 15) ∧
    predict_sec_reduction 1 15 MODEL =
      predict_sec_reduction 1 5 MODEL - MODEL.large_refinery_adj * 100 :=
  ⟨by norm_num, C6_thm.2.1 MODEL 1 15 (by norm_num)⟩

/-- Claim C7 (confirmed): with an explicitly supplied seed,
`monte_carlo_compliance` produces identical outputs — probability, both CI
bounds and the whole sample distribution — regardless of the incoming
generator state, i.e. two calls with identical inputs and the same seed
agree bit for bit. -/
theorem C7_thm : ∀ (σ : Type) (seedState : ℕ → σ)
    (drawNormal : σ → ℚ → ℚ → ℕ → List ℚ × σ) (s1 s2 : σ)
    (baseline_sec target_sec predicted_reduction_pct std_error_pct : ℚ)
    (n_simulations k : ℕ),
    (monte_carlo_compliance seedState drawNormal s1 baseline_sec target_sec
      predicted_reduction_pct n_simulations std_error_pct (some k)).1 =
    (monte_carlo_compliance seedState drawNormal s2 baseline_sec target_sec
      predicted_reduction_pct n_simulations std_error_pct (some k)).1 := by
  intro σ seedState drawNormal s1 s2 b t p e n k
  exact congrArg Prod.fst (monte_carlo_seeded_irrel seedState drawNormal s1 s2 b t p n e k)

/-- Claim C8 (code evaluation): two batch runs that share the same Python
string-hash function produce identical forecast lists (the incoming
generator state is irrelevant), but the per-facility seed
`hash(name) % 2**32` changes whenever the process's hash function changes
on that name — it is not a function of the identifier alone. -/
theorem C8_thm :
    (∀ (σ : Type) (seedState : ℕ → σ)
      (drawNormal : σ → ℚ → ℚ → ℕ → List ℚ × σ) (pyHash : String → ℤ)
      (s1 s2 : σ) (rows : List RefineryRow),
      (batch_compliance_forecast seedState drawNormal pyHash s1 rows).1 =
      (batch_compliance_forecast seedState drawNormal pyHash s2 rows).1) ∧
    (∀ (h1 h2 : String → ℤ) (ident : String),
      (h1 ident).emod (2^32) ≠ (h2 ident).emod (2^32) →
      batchSeed h1 ident ≠ batchSeed h2 ident) := by
  constructor
  · intro σ seedState drawNormal pyHash s1 s2 rows
    cases rows with
    | nil => rfl
    | cons row rest =>
      simp only [batch_compliance_forecast]
      rw [monte_carlo_seeded_irrel seedState drawNormal s1 s2 row.baseline_sec
        row.target_sec
        (predict_sec_reduction row.pat_cycle_entry row.capacity_mmtpa MODEL)
        5000 (171/10) (batchSeed pyHash row.refinery)]
  · intro h1 h2 ident hne heq
    apply hne
    unfold batchSeed at heq
    have ha : (0:ℤ) ≤ (h1 ident).emod (2^32) := Int.emod_nonneg _ (by norm_num)
    have hb : (0:ℤ) ≤ (h2 ident).emod (2^32) := Int.emod_nonneg _ (by norm_num)
    rw [← Int.toNat_of_nonneg ha, ← Int.toNat_of_nonneg hb]
    exact congrArg _ heq

/-- Witness for C8_thm: two hash functions that disagree on a name yield
different seeds for it. -/
theorem C8_witness :
    (((fun _ => (0:ℤ)) "IOCL Panipat").emod (2^32) ≠
      ((fun _ => (1:ℤ)) "IOCL Panipat").emod (2^32)) ∧
    batchSeed (fun _ => 0) "IOCL Panipat" ≠ batchSeed (fun _ => 1) "IOCL Panipat" :=
  ⟨by decide, C8_thm.2 (fun _ => 0) (fun _ => 1) "IOCL Panipat" (by decide)⟩

/-- Claim C9 (counterexample): on a batch containing a facility with
negative capacity, `calculate_portfolio_escerts` neither aborts nor
produces any error entry: both facilities get ordinary position entries,
and the malformed facility's (negative) certificate quantity is folded
into the generated total, which comes out negative. -/
theorem C9_counterexample :
    (calculate_portfolio_escerts [badRow, goodRow] 4000).map
      (fun s => (s.positions.map (fun p => p.refinery),
                 decide (s.total_generated_toe < 0),
                 decide (s.total_required_toe > 0))) =
      some (["BAD", "GOOD"], true, true) := by
  norm_num [calculate_portfolio_escerts, portfolioAux, calculate_escerts,
    badRow, goodRow, roundTo, roundHalfEven, MMBTU_TO_TOE]

/-- Claim C9 (amended): the aggregator has no per-facility error channel at
all: a facility violating the documented capacity precondition is processed
like any other and appears as an ordinary entry of the positions list
(and its quantity is folded into the totals); nothing in the result
attributes an error to it. -/
theorem C9_amended : ∀ (rows : List RefineryRow) (price : ℚ)
    (row : RefineryRow), row ∈ rows → row.capacity_mmtpa ≤ 0 →
    (calculate_portfolio_escerts rows price).map
      (fun s => decide (row.refinery ∈ s.positions.map (fun p => p.refinery))) =
      some true := by
  intro rows price row hmem _
  obtain ⟨g, r, pos, hEq, hMap⟩ := portfolioAux_spec price rows 0 0 []
  simp only [calculate_portfolio_escerts, hEq, Option.map_some']
  have hpos : pos.map (fun p => p.refinery) = rows.map (fun row => row.refinery) := by
    simpa using hMap
  simp [hpos]
  exact ⟨row, hmem, rfl⟩

/-- Witness for C9_amended: the singleton batch consisting of the
negative-capacity facility. -/
theorem C9_witness :
    (badRow ∈ [badRow]) ∧ (badRow.capacity_mmtpa ≤ 0) ∧
    (calculate_portfolio_escerts [badRow] 4000).map
      (fun s => decide (badRow.refinery ∈ s.positions.map (fun p => p.refinery))) =
      some true :=
  ⟨by simp, by norm_num [badRow],
   C9_amended [badRow] 4000 badRow (by simp) (by norm_num [badRow])⟩

/-- Claim C10 (confirmed): `predict_sec_reduction` can be negative: with
the default coefficients, any cohort entry above 2 together with capacity
above 10 yields `2.2 - 8.5 = -6.3`, so callers cannot assume a
non-negative predicted reduction. -/
theorem C10_thm :
    (∀ (e : ℤ) (c : ℚ), 2 < e → 10 < c →
      predict_sec_reduction e c MODEL = -(63/10)) ∧
    predict_sec_reduction 3 15 MODEL < 0 := by
  constructor
  · intro e c he hc
    unfold predict_sec_reduction
    rw [if_neg (not_le.mpr he), if_pos hc]
    norm_num [abs_neg, abs_of_pos, MODEL]
  · unfold predict_sec_reduction
    rw [if_neg (by norm_num : ¬((3:ℤ) ≤ 2)), if_pos (by norm_num : (15:ℚ) > 10)]
    norm_num [abs_neg, abs_of_pos, MODEL]

/-- Witness for C10_thm at cohort entry 3, capacity 15. -/
theorem C10_witness :
    ((2:ℤ) < 3) ∧ ((10:ℚ) < 15) ∧ predict_sec_reduction 3 15 MODEL = -(63/10) :=
  ⟨by norm_num, by norm_num, C10_thm.1 3 15 (by norm_num) (by norm_num)⟩
